import Mathlib

/-!
Shallow embedding of the helpdesk ticketing backend
(`medium-python`: `models.py`, `config.py`, `store.py`, `rate_limit.py`,
`policy.py`, `triage.py`, `notifications.py`, `reporting.py`, `service.py`).

Modelling conventions:
* Python `dict` becomes an insertion-ordered association list with unique
  keys (`dget` / `dset` / `dvalues` mirror `d.get`, `d[k] = v`, `d.values()`).
* ISO-8601 timestamps are modelled as integer epoch seconds; the wall clock
  read by `now_iso()` / `datetime.now()` becomes an explicit `now : Int`
  parameter threaded through the operations (the spec's injectable Clock).
* Durations in hours are exact rationals; Python's float `round(x, 2)`
  becomes rational rounding to two decimals.
* Python exceptions become an error sum type: operations return the result
  (`Except`) together with the store as mutated up to the raise point,
  matching in-place mutation semantics.
-/

namespace Helpdesk

/-- Python `dict.get k`: first (only) binding of `k`, as in `store.py` lookups. -/
def dget {V : Type} (m : List (String × V)) (k : String) : Option V :=
  (m.find? (fun p => p.1 == k)).map (fun p => p.2)

/-- Assignment `d[k] = v` on a Python dict: replace in place if the key exists,
otherwise append, preserving insertion order. -/
def dset {V : Type} (m : List (String × V)) (k : String) (v : V) : List (String × V) :=
  if m.any (fun p => p.1 == k) then
    m.map (fun p => if p.1 == k then (k, v) else p)
  else
    m ++ [(k, v)]

/-- Values `d.values()` in insertion order. -/
def dvalues {V : Type} (m : List (String × V)) : List V :=
  m.map (fun p => p.2)

/-! ### config.py -/

def MAX_OPEN_TICKETS : Nat := 5

def SLA_HOURS : ℚ := 48

def RATE_LIMIT_PER_MINUTE : Nat := 30

/-! ### models.py -/

/-- Model `models.User`. -/
structure User where
  id : String
  email : String
  role : String
  active : Bool
deriving DecidableEq

/-- Model `models.Ticket` (`created_at` as epoch seconds). -/
structure Ticket where
  id : String
  title : String
  description : String
  severity : String
  status : String
  requester_id : String
  created_at : Int
  assigned_to : Option String
  tags : List String
deriving DecidableEq

/-- Model `models.TokenRecord` (`expires_at` as epoch seconds). -/
structure TokenRecord where
  token : String
  user_id : String
  expires_at : Int
deriving DecidableEq

/-- Model `models.AuditEvent` (`created_at` as epoch seconds). -/
structure AuditEvent where
  id : String
  action : String
  actor_id : String
  created_at : Int
  meta : List (String × String)
deriving DecidableEq

/-- One `store.rate_limits[user_id]` entry: the Python code uses the dict
`{"window_start": int, "count": int}` (`rate_limit.py`). -/
structure Window where
  window_start : Int
  count : Nat
deriving DecidableEq

/-! ### store.py -/

/-- Model `store.InMemoryStore`. -/
structure Store where
  users : List (String × User)
  tickets : List (String × Ticket)
  tokens : List (String × TokenRecord)
  audits : List AuditEvent
  rate_limits : List (String × Window)
  _id_counter : Nat
deriving DecidableEq

/-- Decimal digits of `n`, most significant first, via a fuel argument
(`n` itself bounds the number of divisions) so that the definition is
structurally recursive and kernel-reducible. -/
def decDigitsAux : Nat → Nat → List Nat
  | 0, n => [n]
  | fuel + 1, n => if n < 10 then [n] else decDigitsAux fuel (n / 10) ++ [n % 10]

def decDigits (n : Nat) : List Nat :=
  decDigitsAux n n

def digToChar (d : Nat) : Char :=
  match d with
  | 0 => '0' | 1 => '1' | 2 => '2' | 3 => '3' | 4 => '4'
  | 5 => '5' | 6 => '6' | 7 => '7' | 8 => '8' | _ => '9'

/-- Python `f"{n:04d}"`: decimal rendering left-padded with zeros to width 4. -/
def pad4chars (n : Nat) : List Char :=
  let ds := (decDigits n).map digToChar
  List.replicate (4 - ds.length) '0' ++ ds

def pad4 (n : Nat) : String :=
  String.mk (pad4chars n)

/-- Method `InMemoryStore.next_id`: increment the shared counter, render
`f"{prefix}-{counter:04d}"`. -/
def Store.next_id (st : Store) (pre : String) : String × Store :=
  let c := st._id_counter + 1
  (pre ++ "-" ++ pad4 c, { st with _id_counter := c })

/-- Method `InMemoryStore.add_audit`: fresh `"audit"`-prefixed id, current
timestamp, append to the audit list. -/
def Store.add_audit (st : Store) (action : String) (actor_id : String)
    (meta : List (String × String)) (now : Int) : AuditEvent × Store :=
  let (aid, st1) := st.next_id "audit"
  let audit : AuditEvent :=
    { id := aid, action := action, actor_id := actor_id, created_at := now, meta := meta }
  (audit, { st1 with audits := st1.audits ++ [audit] })

/-- Method `InMemoryStore.get_open_tickets_for_user`. -/
def Store.get_open_tickets_for_user (st : Store) (user_id : String) : List Ticket :=
  (dvalues st.tickets).filter (fun t => t.requester_id == user_id && t.status == "open")

/-! ### rate_limit.py -/

/-- Function `check_rate_limit`: returns `true` for success, `false` where the Python
raises `RateLimitError`, together with the store as mutated (the violating
increment is kept in place). -/
def check_rate_limit (user_id : String) (st : Store) (now : Int) : Bool × Store :=
  match dget st.rate_limits user_id with
  | none =>
      (true, { st with rate_limits := dset st.rate_limits user_id ⟨now, 1⟩ })
  | some state =>
      if 60 ≤ now - state.window_start then
        (true, { st with rate_limits := dset st.rate_limits user_id ⟨now, 1⟩ })
      else
        let c := state.count + 1
        (decide (c ≤ RATE_LIMIT_PER_MINUTE),
         { st with rate_limits := dset st.rate_limits user_id ⟨state.window_start, c⟩ })

/-! ### policy.py -/

/-- Function `can_open_ticket`. -/
def can_open_ticket (user : User) (open_tickets : Nat) : Bool × String :=
  if !user.active then (false, "inactive user")
  else if user.role == "guest" then (false, "guest role cannot open tickets")
  else if MAX_OPEN_TICKETS ≤ open_tickets then (false, "too many open tickets")
  else (true, "allowed")

/-! ### triage.py -/

/-- Constant `triage.KEYWORDS`, in dict insertion order. -/
def KEYWORDS : List (String × List String) :=
  [("critical", ["outage", "data loss", "breach"]),
   ("high", ["failure", "crash", "error"]),
   ("medium", ["latency", "slow", "timeout"])]

/-- Python `needle in haystack` on strings: substring containment. -/
def isSubstr (needle : List Char) : List Char → Bool
  | [] => needle.isEmpty
  | c :: rest => needle.isPrefixOf (c :: rest) || isSubstr needle rest

/-- The `for severity, words in KEYWORDS.items()` loop of `classify_severity`. -/
def firstSeverity (haystack : List Char) : List (String × List String) → String
  | [] => "low"
  | (sev, words) :: rest =>
      if words.any (fun w => isSubstr w.data haystack) then sev
      else firstSeverity haystack rest

/-- Function `classify_severity`: lowercase `f"{title} {description}"`, first keyword
group with a substring hit, default `"low"`. -/
def classify_severity (title : String) (description : String) : String :=
  let haystack := (title ++ " " ++ description).data.map Char.toLower
  firstSeverity haystack KEYWORDS

/-- Function `triage.assign_ticket`: `min(agents, key=load)` (first minimum wins, as
Python's `min`); `none` models the `ValueError` on an empty sequence. The
updated ticket carries the in-place `ticket.assigned_to` mutation. -/
def assign_ticket (ticket : Ticket) (agents : List (String × Int)) :
    Option (String × Ticket) :=
  match agents with
  | [] => none
  | a :: rest =>
      let best := rest.foldl (fun b x => if x.2 < b.2 then x else b) a
      some (best.1, { ticket with assigned_to := some best.1 })

/-! ### notifications.py -/

/-- Payload of `send_assignment_notice` (all-string dict). -/
def send_assignment_notice (ticket : Ticket) (agent_id : String) : List (String × String) :=
  [("kind", "assignment"), ("ticket_id", ticket.id),
   ("agent_id", agent_id), ("severity", ticket.severity)]

/-! ### service.py -/

/-- Error outcomes of the service layer: `RateLimitError`, `TicketError(msg)`,
and the `ValueError` that `min()` raises on an empty agent sequence. -/
inductive ServiceErr where
  | rateLimitError : ServiceErr
  | ticketError : String → ServiceErr
  | valueError : ServiceErr
deriving DecidableEq

/-- Function `service.open_ticket`, with the store passed explicitly (the spec's
no-hidden-global form) and `now` the injected clock instant. -/
def open_ticket (requester_id : String) (title : String) (description : String)
    (tags : List String) (st : Store) (now : Int) : Except ServiceErr Ticket × Store :=
  let rl := check_rate_limit requester_id st now
  let st1 := rl.2
  if !rl.1 then (.error .rateLimitError, st1)
  else
    match dget st1.users requester_id with
    | none => (.error (.ticketError "requester not found"), st1)
    | some user =>
        let pol := can_open_ticket user (st1.get_open_tickets_for_user requester_id).length
        if !pol.1 then (.error (.ticketError pol.2), st1)
        else
          let severity := classify_severity title description
          let nid := st1.next_id "ticket"
          let ticket : Ticket :=
            { id := nid.1, title := title, description := description,
              severity := severity, status := "open", requester_id := requester_id,
              created_at := now, assigned_to := none, tags := tags }
          let st3 := { nid.2 with tickets := dset nid.2.tickets nid.1 ticket }
          (.ok ticket,
           (st3.add_audit "ticket.open" requester_id
             [("ticket_id", nid.1), ("severity", severity)] now).2)

/-- Function `service.assign_ticket_flow`. -/
def assign_ticket_flow (ticket_id : String) (agents : List (String × Int))
    (st : Store) (now : Int) : Except ServiceErr (List (String × String)) × Store :=
  match dget st.tickets ticket_id with
  | none => (.error (.ticketError "ticket not found"), st)
  | some ticket =>
      match assign_ticket ticket agents with
      | none => (.error .valueError, st)
      | some pr =>
          let st1 := { st with tickets := dset st.tickets ticket_id pr.2 }
          (.ok (send_assignment_notice pr.2 pr.1),
           (st1.add_audit "ticket.assign" pr.1 [("ticket_id", pr.2.id)] now).2)

/-- Function `service.close_ticket`: unconditional `status = "closed"` plus audit. -/
def close_ticket (ticket_id : String) (actor_id : String) (st : Store) (now : Int) :
    Except ServiceErr Ticket × Store :=
  match dget st.tickets ticket_id with
  | none => (.error (.ticketError "ticket not found"), st)
  | some ticket =>
      let ticket1 := { ticket with status := "closed" }
      let st1 := { st with tickets := dset st.tickets ticket_id ticket1 }
      (.ok ticket1, (st1.add_audit "ticket.close" actor_id [("ticket_id", ticket1.id)] now).2)

/-! ### utils.py / reporting.py -/

/-- Function `utils.hours_since` on epoch-second stamps, exact rational hours. -/
def hours_since (stamp : Int) (now : Int) : ℚ :=
  ((now - stamp : Int) : ℚ) / 3600

/-- Python `round(x, 2)` modelled as rational rounding to two decimals. -/
def round2 (q : ℚ) : ℚ :=
  ((round (q * 100) : ℤ) : ℚ) / 100

/-- One `build_sla_report` entry `{ticket_id, hours_open, severity}`. -/
structure SlaEntry where
  ticket_id : String
  hours_open : ℚ
  severity : String
deriving DecidableEq

/-- Function `reporting.build_sla_report`: skip non-open tickets, report open tickets
whose age reaches `SLA_HOURS`. -/
def build_sla_report (tickets : List Ticket) (now : Int) : List SlaEntry :=
  match tickets with
  | [] => []
  | t :: rest =>
      if t.status ≠ "open" then build_sla_report rest now
      else if SLA_HOURS ≤ hours_since t.created_at now then
        ⟨t.id, round2 (hours_since t.created_at now), t.severity⟩ :: build_sla_report rest now
      else build_sla_report rest now

/-- The report entry `build_sla_report` emits for a qualifying ticket. -/
def sla_entry (t : Ticket) (now : Int) : SlaEntry :=
  ⟨t.id, round2 (hours_since t.created_at now), t.severity⟩

/-! ### Derived observation helpers -/

/-- Sequence of `next_id` calls on one store, collecting the returned IDs. -/
def run_next_ids (st : Store) : List String → List String × Store
  | [] => ([], st)
  | p :: ps =>
      let r := st.next_id p
      let rest := run_next_ids r.2 ps
      (r.1 :: rest.1, rest.2)

/-- Sequence of `check_rate_limit` calls for one user at the given instants,
collecting each call's success flag. -/
def sim_rate (uid : String) (st : Store) : List Int → List Bool × Store
  | [] => ([], st)
  | t :: ts =>
      let r := check_rate_limit uid st t
      let rest := sim_rate uid r.2 ts
      (r.1 :: rest.1, rest.2)

/-- Value of a most-significant-first decimal digit list. -/
def digitsVal (ds : List Nat) : Nat :=
  ds.foldl (fun a d => a * 10 + d) 0

/-- Parse a digit-character list back to a number. -/
def parseDigits (l : List Char) : Nat :=
  l.foldl (fun a c => a * 10 + (c.toNat - 48)) 0

/-- Characters of an ID after its last `'-'` separator. -/
def numSuffix (s : String) : List Char :=
  (s.data.reverse.takeWhile (fun c => c != '-')).reverse

/-- Numeric component of a `next_id`-generated ID. -/
def idNum (s : String) : Nat :=
  parseDigits (numSuffix s)

/-! ### Concrete fixtures -/

def u1 : User := { id := "u1", email := "u1@example.com", role := "agent", active := true }

def u_inactive : User := { id := "u2", email := "u2@example.com", role := "agent", active := false }

def u_guest : User := { id := "u3", email := "u3@example.com", role := "guest", active := true }

/-- A fresh store seeded with one active agent user. -/
def stA : Store :=
  { users := [("u1", u1)], tickets := [], tokens := [], audits := [],
    rate_limits := [], _id_counter := 0 }

/-- Store `stA` after one successful `open_ticket`, holding `"ticket-0001"`. -/
def stB : Store := (open_ticket "u1" "hello" "world" [] stA 0).2

/-- A ticket already in the terminal `"closed"` status. -/
def tClosed : Ticket :=
  { id := "ticket-0001", title := "t", description := "d", severity := "low",
    status := "closed", requester_id := "u1", created_at := 0,
    assigned_to := none, tags := [] }

/-- A store holding only the closed ticket `tClosed`. -/
def stClosed : Store :=
  { users := [("u1", u1)], tickets := [("ticket-0001", tClosed)], tokens := [],
    audits := [], rate_limits := [], _id_counter := 1 }

/-- An open ticket created at epoch 0 (old enough to breach the SLA later). -/
def tOld : Ticket :=
  { id := "ticket-0001", title := "t", description := "d", severity := "low",
    status := "open", requester_id := "u1", created_at := 0,
    assigned_to := none, tags := [] }

/-- A closed ticket just as old as `tOld`. -/
def tClosedOld : Ticket :=
  { id := "ticket-0002", title := "t", description := "d", severity := "low",
    status := "closed", requester_id := "u1", created_at := 0,
    assigned_to := none, tags := [] }

/-! ## Dictionary lemmas -/

theorem find_map_replace {V : Type} (k : String) (v : V) :
    ∀ m : List (String × V), m.any (fun p => p.1 == k) = true →
      (m.map (fun p => if p.1 == k then (k, v) else p)).find? (fun p => p.1 == k) = some (k, v) := by
  intro m
  induction m with
  | nil => intro h; simp at h
  | cons p rest ih =>
      intro h
      by_cases hp : (p.1 == k) = true
      · rw [List.map_cons, if_pos hp]
        simp [List.find?]
      · have hp0 : (p.1 == k) = false := by simpa using hp
        rw [List.map_cons, if_neg hp]
        simp only [List.find?, hp0]
        simp only [List.any_cons, hp0, Bool.false_or] at h
        exact ih h

theorem find_eq_none_of_not_any {V : Type} (k : String) :
    ∀ m : List (String × V), m.any (fun p => p.1 == k) = false →
      m.find? (fun p => p.1 == k) = none := by
  intro m
  induction m with
  | nil => intro _; rfl
  | cons p rest ih =>
      intro h
      simp only [List.any_cons, Bool.or_eq_false_iff] at h
      simp only [List.find?, h.1]
      exact ih h.2

theorem dget_dset_self {V : Type} (m : List (String × V)) (k : String) (v : V) :
    dget (dset m k v) k = some v := by
  unfold dget dset
  by_cases h : m.any (fun p => p.1 == k)
  · rw [if_pos h, find_map_replace k v m h]
    rfl
  · rw [if_neg h, List.find?_append,
      find_eq_none_of_not_any k m (by rw [← Bool.not_eq_true]; exact h)]
    simp [List.find?]

theorem find_map_replace_ne {V : Type} (k k' : String) (v : V) (hne : k' ≠ k) :
    ∀ m : List (String × V),
      (m.map (fun p => if p.1 == k then (k, v) else p)).find? (fun p => p.1 == k') =
        m.find? (fun p => p.1 == k') := by
  intro m
  induction m with
  | nil => rfl
  | cons p rest ih =>
      by_cases hp : (p.1 == k) = true
      · have hpk : p.1 = k := by simpa using hp
        have h1 : (k == k') = false := beq_eq_false_iff_ne.mpr hne.symm
        have h2 : (p.1 == k') = false := by rw [hpk]; exact h1
        rw [List.map_cons, if_pos hp]
        simp only [List.find?, h1, h2]
        exact ih
      · rw [List.map_cons, if_neg hp]
        cases hq : (p.1 == k') with
        | false => simp only [List.find?, hq]; exact ih
        | true => simp only [List.find?, hq]

theorem dget_dset_ne {V : Type} (m : List (String × V)) (k k' : String) (v : V)
    (hne : k' ≠ k) : dget (dset m k v) k' = dget m k' := by
  unfold dget dset
  by_cases h : m.any (fun p => p.1 == k)
  · rw [if_pos h, find_map_replace_ne k k' v hne m]
  · rw [if_neg h, List.find?_append]
    have h1 : (k == k') = false := beq_eq_false_iff_ne.mpr hne.symm
    cases hf : m.find? (fun p => p.1 == k') <;> simp [List.find?, h1]

/-! ## Store-field preservation lemmas -/

@[simp] theorem next_id_fst (st : Store) (pre : String) :
    (st.next_id pre).1 = pre ++ "-" ++ pad4 (st._id_counter + 1) := rfl

@[simp] theorem next_id_counter (st : Store) (pre : String) :
    (st.next_id pre).2._id_counter = st._id_counter + 1 := rfl

@[simp] theorem next_id_users (st : Store) (pre : String) :
    (st.next_id pre).2.users = st.users := rfl

@[simp] theorem next_id_tickets (st : Store) (pre : String) :
    (st.next_id pre).2.tickets = st.tickets := rfl

@[simp] theorem next_id_audits (st : Store) (pre : String) :
    (st.next_id pre).2.audits = st.audits := rfl

@[simp] theorem next_id_rate_limits (st : Store) (pre : String) :
    (st.next_id pre).2.rate_limits = st.rate_limits := rfl

@[simp] theorem add_audit_audits (st : Store) (action actor : String)
    (meta : List (String × String)) (now : Int) :
    (st.add_audit action actor meta now).2.audits =
      st.audits ++ [(st.add_audit action actor meta now).1] := rfl

@[simp] theorem add_audit_fst (st : Store) (action actor : String)
    (meta : List (String × String)) (now : Int) :
    (st.add_audit action actor meta now).1 =
      { id := "audit" ++ "-" ++ pad4 (st._id_counter + 1), action := action,
        actor_id := actor, created_at := now, meta := meta } := rfl

@[simp] theorem add_audit_tickets (st : Store) (action actor : String)
    (meta : List (String × String)) (now : Int) :
    (st.add_audit action actor meta now).2.tickets = st.tickets := rfl

@[simp] theorem add_audit_users (st : Store) (action actor : String)
    (meta : List (String × String)) (now : Int) :
    (st.add_audit action actor meta now).2.users = st.users := rfl

@[simp] theorem add_audit_rate_limits (st : Store) (action actor : String)
    (meta : List (String × String)) (now : Int) :
    (st.add_audit action actor meta now).2.rate_limits = st.rate_limits := rfl

@[simp] theorem add_audit_counter (st : Store) (action actor : String)
    (meta : List (String × String)) (now : Int) :
    (st.add_audit action actor meta now).2._id_counter = st._id_counter + 1 := rfl

@[simp] theorem check_rate_limit_users (u : String) (st : Store) (now : Int) :
    (check_rate_limit u st now).2.users = st.users := by
  unfold check_rate_limit
  cases dget st.rate_limits u
  · rfl
  · dsimp only
    split <;> rfl

@[simp] theorem check_rate_limit_tickets (u : String) (st : Store) (now : Int) :
    (check_rate_limit u st now).2.tickets = st.tickets := by
  unfold check_rate_limit
  cases dget st.rate_limits u
  · rfl
  · dsimp only
    split <;> rfl

@[simp] theorem check_rate_limit_audits (u : String) (st : Store) (now : Int) :
    (check_rate_limit u st now).2.audits = st.audits := by
  unfold check_rate_limit
  cases dget st.rate_limits u
  · rfl
  · dsimp only
    split <;> rfl

@[simp] theorem check_rate_limit_counter (u : String) (st : Store) (now : Int) :
    (check_rate_limit u st now).2._id_counter = st._id_counter := by
  unfold check_rate_limit
  cases dget st.rate_limits u
  · rfl
  · dsimp only
    split <;> rfl

/-! ## Decimal rendering and parsing of generated IDs -/

theorem decDigitsAux_lt10 :
    ∀ fuel n : Nat, n ≤ fuel → ∀ d ∈ decDigitsAux fuel n, d < 10 := by
  intro fuel
  induction fuel with
  | zero =>
      intro n hn d hd
      have h0 : n = 0 := Nat.le_zero.mp hn
      subst h0
      simp [decDigitsAux] at hd
      omega
  | succ f ih =>
      intro n hn d hd
      unfold decDigitsAux at hd
      by_cases hsmall : n < 10
      · rw [if_pos hsmall] at hd
        simp at hd
        omega
      · rw [if_neg hsmall] at hd
        rcases List.mem_append.mp hd with hmem | hmem
        · have hdiv : n / 10 < n := Nat.div_lt_self (by omega) (by omega)
          exact ih (n / 10) (by omega) d hmem
        · simp at hmem
          subst hmem
          exact Nat.mod_lt n (by omega)

theorem digitsVal_append_one (l : List Nat) (d : Nat) :
    digitsVal (l ++ [d]) = digitsVal l * 10 + d := by
  simp [digitsVal, List.foldl_append]

theorem digitsVal_decDigitsAux :
    ∀ fuel n : Nat, n ≤ fuel → digitsVal (decDigitsAux fuel n) = n := by
  intro fuel
  induction fuel with
  | zero =>
      intro n hn
      have h0 : n = 0 := Nat.le_zero.mp hn
      subst h0
      simp [decDigitsAux, digitsVal]
  | succ f ih =>
      intro n hn
      unfold decDigitsAux
      by_cases hsmall : n < 10
      · rw [if_pos hsmall]
        simp [digitsVal]
      · rw [if_neg hsmall, digitsVal_append_one]
        have hdiv : n / 10 < n := Nat.div_lt_self (by omega) (by omega)
        rw [ih (n / 10) (by omega)]
        omega

theorem decDigits_lt10 (n : Nat) : ∀ d ∈ decDigits n, d < 10 :=
  decDigitsAux_lt10 n n le_rfl

theorem digitsVal_decDigits (n : Nat) : digitsVal (decDigits n) = n :=
  digitsVal_decDigitsAux n n le_rfl

theorem digToChar_toNat (d : Nat) (h : d < 10) : (digToChar d).toNat - 48 = d := by
  interval_cases d <;> rfl

theorem digToChar_ne_dash (d : Nat) : (digToChar d != '-') = true := by
  unfold digToChar
  split <;> decide

theorem parse_map_digToChar :
    ∀ (ds : List Nat) (a : Nat), (∀ d ∈ ds, d < 10) →
      List.foldl (fun a c => a * 10 + (c.toNat - 48)) a (ds.map digToChar) =
        List.foldl (fun a d => a * 10 + d) a ds := by
  intro ds
  induction ds with
  | nil => intro a _; rfl
  | cons d rest ih =>
      intro a h
      simp only [List.map_cons, List.foldl_cons]
      rw [digToChar_toNat d (h d (by simp))]
      exact ih _ (fun x hx => h x (by simp [hx]))

theorem parseDigits_map (ds : List Nat) (h : ∀ d ∈ ds, d < 10) :
    parseDigits (ds.map digToChar) = digitsVal ds :=
  parse_map_digToChar ds 0 h

theorem parseDigits_replicate_zero :
    ∀ (k : Nat) (l : List Char), parseDigits (List.replicate k '0' ++ l) = parseDigits l := by
  intro k
  induction k with
  | zero => intro l; rfl
  | succ j ih =>
      intro l
      unfold parseDigits
      rw [List.replicate_succ, List.cons_append, List.foldl_cons]
      have h0 : (0 * 10 + ('0'.toNat - 48)) = 0 := by decide
      rw [h0]
      exact ih l

theorem parseDigits_pad4chars (n : Nat) : parseDigits (pad4chars n) = n := by
  unfold pad4chars
  rw [parseDigits_replicate_zero, parseDigits_map (decDigits n) (decDigits_lt10 n),
    digitsVal_decDigits]

theorem pad4chars_ne_dash (n : Nat) : ∀ c ∈ pad4chars n, (c != '-') = true := by
  intro c hc
  unfold pad4chars at hc
  rcases List.mem_append.mp hc with hm | hm
  · rw [(List.mem_replicate.mp hm).2]
    decide
  · rcases List.mem_map.mp hm with ⟨d, _, hd⟩
    rw [← hd]
    exact digToChar_ne_dash d

theorem takeWhile_append_all {α : Type} (p : α → Bool) :
    ∀ (l1 : List α) (y : α) (l2 : List α), (∀ x ∈ l1, p x = true) → p y = false →
      (l1 ++ y :: l2).takeWhile p = l1 := by
  intro l1
  induction l1 with
  | nil =>
      intro y l2 _ hy
      simp [List.takeWhile_cons, hy]
  | cons x xs ih =>
      intro y l2 hall hy
      rw [List.cons_append, List.takeWhile_cons, if_pos (hall x (by simp)),
        ih y l2 (fun z hz => hall z (by simp [hz])) hy]

theorem idNum_render (pre : String) (c : Nat) : idNum (pre ++ "-" ++ pad4 c) = c := by
  unfold idNum numSuffix
  have hdata : (pre ++ "-" ++ pad4 c).data = (pre.data ++ ['-']) ++ pad4chars c := by
    rw [String.data_append, String.data_append]
    rfl
  rw [hdata, List.reverse_append, List.reverse_append]
  simp only [List.reverse_cons, List.reverse_nil, List.nil_append, List.singleton_append]
  rw [takeWhile_append_all _ ((pad4chars c).reverse) '-' pre.data.reverse
    (fun x hx => pad4chars_ne_dash c x (List.mem_reverse.mp hx)) (by decide)]
  rw [List.reverse_reverse]
  exact parseDigits_pad4chars c

theorem run_next_ids_getElem :
    ∀ (ps : List String) (st : Store) (i : Nat),
      (run_next_ids st ps).1[i]? =
        (ps[i]?).map (fun p => p ++ "-" ++ pad4 (st._id_counter + (i + 1))) := by
  intro ps
  induction ps with
  | nil => intro st i; simp [run_next_ids]
  | cons p ps ih =>
      intro st i
      cases i with
      | zero => simp [run_next_ids, Store.next_id]
      | succ k =>
          simp only [run_next_ids, List.getElem?_cons_succ]
          rw [ih]
          simp only [next_id_counter]
          have harg : st._id_counter + 1 + (k + 1) = st._id_counter + (k + 1 + 1) := by omega
          rw [harg]

/-! ## Claim theorems -/

/-- C5: for every sequence of `next_id` calls on one store, IDs returned for
calls sharing the same prefix are pairwise distinct, and their numeric
components strictly increase in call order. -/
theorem C5_same_prefix_ids_strictly_increasing
    (ps : List String) (st : Store) (i j : Nat) (q1 q2 a1 a2 : String)
    (hij : i < j) (hq1 : ps[i]? = some q1) (hq2 : ps[j]? = some q2) (hqq : q1 = q2)
    (ha1 : (run_next_ids st ps).1[i]? = some a1)
    (ha2 : (run_next_ids st ps).1[j]? = some a2) :
    a1 ≠ a2 ∧ idNum a1 < idNum a2 := by
  subst hqq
  rw [run_next_ids_getElem, hq1] at ha1
  rw [run_next_ids_getElem, hq2] at ha2
  simp only [Option.map_some'] at ha1 ha2
  have ha1' : q1 ++ "-" ++ pad4 (st._id_counter + (i + 1)) = a1 := Option.some.inj ha1
  have ha2' : q1 ++ "-" ++ pad4 (st._id_counter + (j + 1)) = a2 := Option.some.inj ha2
  have hn1 : idNum a1 = st._id_counter + (i + 1) := by
    rw [← ha1']; exact idNum_render q1 _
  have hn2 : idNum a2 = st._id_counter + (j + 1) := by
    rw [← ha2']; exact idNum_render q1 _
  constructor
  · intro hEq
    rw [hEq] at hn1
    omega
  · omega

/-- C5 witness: on a fresh store, the first and third calls (both with the
`"ticket"` prefix, an `"audit"` call between them) return distinct IDs with
increasing numeric parts. -/
theorem C5_witness :
    (run_next_ids stA ["ticket", "audit", "ticket"]).1[0]? = some "ticket-0001" ∧
    (run_next_ids stA ["ticket", "audit", "ticket"]).1[2]? = some "ticket-0003" ∧
    ("ticket-0001" ≠ "ticket-0003" ∧ idNum "ticket-0001" < idNum "ticket-0003") :=
  ⟨by decide, by decide,
   C5_same_prefix_ids_strictly_increasing ["ticket", "audit", "ticket"] stA 0 2
     "ticket" "ticket" "ticket-0001" "ticket-0003"
     (by decide) (by decide) (by decide) rfl (by decide) (by decide)⟩

/-- C3: rate limiter behaviour with the limit configured to 30 — a missing
window is created with count 1 and succeeds; an elapsed window (≥ 60s) is
reset to count 1 and succeeds; otherwise the count is incremented in place
and the call fails exactly when the incremented count exceeds the limit.
Hence 30 opens in one window succeed, the 31st fails, and a call 61 seconds
after the window start succeeds with the count reset to 1. -/
theorem C3_rate_limiter :
    (∀ uid st now, dget st.rate_limits uid = none →
       check_rate_limit uid st now =
         (true, { st with rate_limits := dset st.rate_limits uid ⟨now, 1⟩ })) ∧
    (∀ uid st now w, dget st.rate_limits uid = some w → 60 ≤ now - w.window_start →
       check_rate_limit uid st now =
         (true, { st with rate_limits := dset st.rate_limits uid ⟨now, 1⟩ })) ∧
    (∀ uid st now w, dget st.rate_limits uid = some w → now - w.window_start < 60 →
       ((check_rate_limit uid st now).1 = true ↔ w.count + 1 ≤ RATE_LIMIT_PER_MINUTE) ∧
       (check_rate_limit uid st now).2 =
         { st with rate_limits := dset st.rate_limits uid ⟨w.window_start, w.count + 1⟩ }) ∧
    ((sim_rate "u" stA (List.replicate 31 0 ++ [61])).1 =
       List.replicate 30 true ++ [false, true] ∧
     dget (sim_rate "u" stA (List.replicate 31 0 ++ [61])).2.rate_limits "u" =
       some ⟨61, 1⟩) := by
  refine ⟨?_, ?_, ?_, ?_, ?_⟩
  · intro uid st now h
    unfold check_rate_limit
    rw [h]
  · intro uid st now w h h60
    unfold check_rate_limit
    rw [h]
    dsimp only
    rw [if_pos h60]
  · intro uid st now w h h60
    unfold check_rate_limit
    rw [h]
    dsimp only
    rw [if_neg (by omega)]
    exact ⟨by simp, rfl⟩
  · decide
  · decide

/-- C3 witness: a user with no window gets one with count 1 and succeeds. -/
theorem C3_witness :
    dget stA.rate_limits "u1" = none ∧
    check_rate_limit "u1" stA 0 =
      (true, { stA with rate_limits := dset stA.rate_limits "u1" ⟨0, 1⟩ }) :=
  ⟨rfl, C3_rate_limiter.1 "u1" stA 0 rfl⟩

/-- C4: `can_open_ticket` checks, in order and with the first failing check
winning: active flag, guest role, then the strict open-ticket cap of 5; a
user passing all three is allowed. It is a pure function (modelled as such).
At the cap boundary: 5 open tickets deny, 4 allow. -/
theorem C4_policy_checks :
    (∀ u n, u.active = false → can_open_ticket u n = (false, "inactive user")) ∧
    (∀ u n, u.active = true → u.role = "guest" →
       can_open_ticket u n = (false, "guest role cannot open tickets")) ∧
    (∀ u n, u.active = true → u.role ≠ "guest" → MAX_OPEN_TICKETS ≤ n →
       can_open_ticket u n = (false, "too many open tickets")) ∧
    (∀ u n, u.active = true → u.role ≠ "guest" → n < MAX_OPEN_TICKETS →
       can_open_ticket u n = (true, "allowed")) ∧
    can_open_ticket u1 5 = (false, "too many open tickets") ∧
    can_open_ticket u1 4 = (true, "allowed") := by
  refine ⟨?_, ?_, ?_, ?_, by decide, by decide⟩
  · intro u n h
    unfold can_open_ticket
    rw [h]
    rfl
  · intro u n ha hg
    unfold can_open_ticket
    rw [ha, hg]
    rfl
  · intro u n ha hg hcap
    unfold can_open_ticket
    rw [ha]
    have hg0 : (u.role == "guest") = false := beq_eq_false_iff_ne.mpr hg
    rw [hg0]
    simp only [Bool.not_true, Bool.false_eq_true, if_false, if_pos hcap]
  · intro u n ha hg hcap
    unfold can_open_ticket
    rw [ha]
    have hg0 : (u.role == "guest") = false := beq_eq_false_iff_ne.mpr hg
    rw [hg0]
    have hlt : ¬MAX_OPEN_TICKETS ≤ n := by omega
    simp only [Bool.not_true, Bool.false_eq_true, if_false, if_neg hlt]

/-- C4 witness: an inactive user is denied with "inactive user", and a guest
is denied with "guest role cannot open tickets". -/
theorem C4_witness :
    can_open_ticket u_inactive 0 = (false, "inactive user") ∧
    can_open_ticket u_guest 0 = (false, "guest role cannot open tickets") :=
  ⟨C4_policy_checks.1 u_inactive 0 rfl, C4_policy_checks.2.1 u_guest 0 rfl rfl⟩

/-- C7: `classify_severity` scans the lowercased concatenation of title and
description against the keyword groups in the order critical→high→medium,
returning the first group with a substring hit and `"low"` otherwise; a text
with both a critical and a lower-priority keyword is `"critical"`. -/
theorem C7_classify_severity :
    (∀ title description,
       classify_severity title description =
         (let hay := (title ++ " " ++ description).data.map Char.toLower
          if ["outage", "data loss", "breach"].any (fun w => isSubstr w.data hay) then "critical"
          else if ["failure", "crash", "error"].any (fun w => isSubstr w.data hay) then "high"
          else if ["latency", "slow", "timeout"].any (fun w => isSubstr w.data hay) then "medium"
          else "low")) ∧
    classify_severity "Data loss incident" "" = "critical" ∧
    classify_severity "slow response" "" = "medium" ∧
    classify_severity "" "" = "low" ∧
    classify_severity "outage with slow latency" "" = "critical" :=
  ⟨fun _ _ => rfl, by decide, by decide, by decide, by decide⟩

/-- C8: `build_sla_report` returns exactly the entries of the open tickets
whose age reaches `SLA_HOURS`, in input order, and emits nothing for a
non-open ticket no matter its age (here `tClosedOld` is as old as the
reported `tOld` yet excluded). -/
theorem C8_sla_report :
    (∀ ts now, build_sla_report ts now =
       (ts.filter (fun t =>
          t.status == "open" && decide (SLA_HOURS ≤ hours_since t.created_at now))).map
         (fun t => sla_entry t now)) ∧
    build_sla_report [tOld, tClosedOld] 200000 = [sla_entry tOld 200000] := by
  constructor
  · intro ts now
    induction ts with
    | nil => rfl
    | cons t rest ih =>
        unfold build_sla_report
        by_cases hst : t.status = "open"
        · have hst1 : (t.status == "open") = true := beq_iff_eq.mpr hst
          by_cases hage : SLA_HOURS ≤ hours_since t.created_at now
          · have hage1 : decide (SLA_HOURS ≤ hours_since t.created_at now) = true :=
              decide_eq_true hage
            rw [if_neg (by simp [hst]), if_pos hage, ih]
            simp [List.filter, hst1, hage1, sla_entry]
          · have hage0 : decide (SLA_HOURS ≤ hours_since t.created_at now) = false :=
              decide_eq_false hage
            rw [if_neg (by simp [hst]), if_neg hage, ih]
            simp [List.filter, hst1, hage0]
        · have hst0 : (t.status == "open") = false := beq_eq_false_iff_ne.mpr hst
          rw [if_pos hst, ih]
          simp [List.filter, hst0]
  · have hage : SLA_HOURS ≤ hours_since tOld.created_at 200000 := by
      unfold SLA_HOURS hours_since tOld
      norm_num
    have hne : ¬tClosedOld.status = "open" := by decide
    have hop : tOld.status = "open" := rfl
    simp [build_sla_report, hage, hne, hop, sla_entry]

/-- C9: `open_ticket` consults the rate limiter before requester resolution
and policy, so the final rate-limit table is exactly the one produced by
`check_rate_limit` — every call, successful or not, initializes its window
to count 1 or increments it in place. -/
theorem C9_open_consumes_quota :
    ∀ rqid ti de tg st now,
      (open_ticket rqid ti de tg st now).2.rate_limits =
        (check_rate_limit rqid st now).2.rate_limits ∧
      dget (open_ticket rqid ti de tg st now).2.rate_limits rqid =
        some (match dget st.rate_limits rqid with
              | none => ⟨now, 1⟩
              | some w =>
                  if 60 ≤ now - w.window_start then ⟨now, 1⟩
                  else ⟨w.window_start, w.count + 1⟩) := by
  intro rqid ti de tg st now
  have hfirst : (open_ticket rqid ti de tg st now).2.rate_limits =
      (check_rate_limit rqid st now).2.rate_limits := by
    unfold open_ticket
    dsimp only
    split
    · rfl
    · split
      · rfl
      · split
        · rfl
        · rfl
  refine ⟨hfirst, ?_⟩
  rw [hfirst]
  unfold check_rate_limit
  cases hrl : dget st.rate_limits rqid with
  | none =>
      dsimp only
      rw [dget_dset_self]
  | some w =>
      dsimp only
      split
      · rw [dget_dset_self]
      · rw [dget_dset_self]

/-! ## Success-shape helpers for the service operations -/

theorem open_ticket_ok_facts (rqid ti de : String) (tg : List String) (st : Store)
    (now : Int) (t : Ticket) (st' : Store)
    (h : open_ticket rqid ti de tg st now = (.ok t, st')) :
    t.id = "ticket" ++ "-" ++ pad4 (st._id_counter + 1) ∧
    st'._id_counter = st._id_counter + 2 ∧
    st'.audits = st.audits ++
      [{ id := "audit" ++ "-" ++ pad4 (st._id_counter + 2), action := "ticket.open",
         actor_id := rqid, created_at := now,
         meta := [("ticket_id", t.id), ("severity", t.severity)] }] := by
  unfold open_ticket at h
  dsimp only at h
  cases hrl : (check_rate_limit rqid st now).1 with
  | false => rw [hrl] at h; simp at h
  | true =>
      rw [hrl] at h
      simp only [Bool.not_true, Bool.false_eq_true, if_false] at h
      cases hu : dget (check_rate_limit rqid st now).2.users rqid with
      | none => rw [hu] at h; simp at h
      | some user =>
          rw [hu] at h
          dsimp only at h
          cases hpol : (can_open_ticket user
              ((check_rate_limit rqid st now).2.get_open_tickets_for_user rqid).length).1 with
          | false => rw [hpol] at h; simp at h
          | true =>
              rw [hpol] at h
              simp only [Bool.not_true, Bool.false_eq_true, if_false] at h
              simp only [Prod.mk.injEq, Except.ok.injEq] at h
              obtain ⟨ht, hst⟩ := h
              subst hst
              refine ⟨?_, ?_, ?_⟩
              · rw [← ht]
                simp
              · simp
              · rw [← ht]
                simp

theorem assign_ticket_flow_ok_facts (tid : String) (ags : List (String × Int))
    (st : Store) (now : Int) (p : List (String × String)) (st' : Store)
    (h : assign_ticket_flow tid ags st now = (.ok p, st')) :
    ∃ ticket pr, dget st.tickets tid = some ticket ∧ assign_ticket ticket ags = some pr ∧
      st' = (({ st with tickets := dset st.tickets tid pr.2 } : Store).add_audit
               "ticket.assign" pr.1 [("ticket_id", pr.2.id)] now).2 ∧
      p = send_assignment_notice pr.2 pr.1 := by
  unfold assign_ticket_flow at h
  cases hkt : dget st.tickets tid with
  | none => rw [hkt] at h; simp at h
  | some ticket =>
      rw [hkt] at h
      dsimp only at h
      cases has : assign_ticket ticket ags with
      | none => rw [has] at h; simp at h
      | some pr =>
          rw [has] at h
          dsimp only at h
          simp only [Prod.mk.injEq, Except.ok.injEq] at h
          obtain ⟨hp, hst⟩ := h
          exact ⟨ticket, pr, rfl, has, hst.symm, hp.symm⟩

theorem close_ticket_ok_facts (tid actor : String) (st : Store) (now : Int)
    (t : Ticket) (st' : Store)
    (h : close_ticket tid actor st now = (.ok t, st')) :
    ∃ ticket, dget st.tickets tid = some ticket ∧
      t = { ticket with status := "closed" } ∧
      st' = (({ st with
                tickets := dset st.tickets tid { ticket with status := "closed" } } : Store).add_audit
               "ticket.close" actor [("ticket_id", ticket.id)] now).2 := by
  unfold close_ticket at h
  cases hkt : dget st.tickets tid with
  | none => rw [hkt] at h; simp at h
  | some ticket =>
      rw [hkt] at h
      dsimp only at h
      simp only [Prod.mk.injEq, Except.ok.injEq] at h
      obtain ⟨ht, hst⟩ := h
      exact ⟨ticket, rfl, ht.symm, hst.symm⟩

theorem assign_ticket_some_facts (t : Ticket) (ags : List (String × Int))
    (pr : String × Ticket) (h : assign_ticket t ags = some pr) :
    pr.2.status = t.status ∧ pr.2.id = t.id ∧ pr.2.assigned_to = some pr.1 := by
  cases ags with
  | nil => simp [assign_ticket] at h
  | cons a rest =>
      simp only [assign_ticket, Option.some.injEq] at h
      rw [← h]
      exact ⟨rfl, rfl, rfl⟩

/-- C1: every successful `open_ticket`, `assign_ticket_flow`, or
`close_ticket` appends exactly one audit event, whose action is respectively
`"ticket.open"`, `"ticket.assign"`, `"ticket.close"`. -/
theorem C1_audit_per_mutation :
    (∀ rqid ti de tg st now t st',
       open_ticket rqid ti de tg st now = (.ok t, st') →
       ∃ e, st'.audits = st.audits ++ [e] ∧ e.action = "ticket.open") ∧
    (∀ tid ags st now p st',
       assign_ticket_flow tid ags st now = (.ok p, st') →
       ∃ e, st'.audits = st.audits ++ [e] ∧ e.action = "ticket.assign") ∧
    (∀ tid actor st now t st',
       close_ticket tid actor st now = (.ok t, st') →
       ∃ e, st'.audits = st.audits ++ [e] ∧ e.action = "ticket.close") := by
  refine ⟨?_, ?_, ?_⟩
  · intro rqid ti de tg st now t st' h
    obtain ⟨_, _, haud⟩ := open_ticket_ok_facts rqid ti de tg st now t st' h
    exact ⟨_, haud, rfl⟩
  · intro tid ags st now p st' h
    obtain ⟨ticket, pr, _, _, hst, _⟩ := assign_ticket_flow_ok_facts tid ags st now p st' h
    subst hst
    exact ⟨{ id := "audit" ++ "-" ++ pad4 (st._id_counter + 1), action := "ticket.assign",
             actor_id := pr.1, created_at := now, meta := [("ticket_id", pr.2.id)] },
           by simp, rfl⟩
  · intro tid actor st now t st' h
    obtain ⟨ticket, _, _, hst⟩ := close_ticket_ok_facts tid actor st now t st' h
    subst hst
    exact ⟨{ id := "audit" ++ "-" ++ pad4 (st._id_counter + 1), action := "ticket.close",
             actor_id := actor, created_at := now, meta := [("ticket_id", ticket.id)] },
           by simp, rfl⟩

/-- C1 witness: concrete successful open on `stA`, assign and close on `stB`. -/
theorem C1_witness :
    (∃ e, (open_ticket "u1" "hello" "world" [] stA 0).2.audits = stA.audits ++ [e] ∧
       e.action = "ticket.open") ∧
    (∃ e, (assign_ticket_flow "ticket-0001" [("a1", 3), ("a2", 1)] stB 7).2.audits =
       stB.audits ++ [e] ∧ e.action = "ticket.assign") ∧
    (∃ e, (close_ticket "ticket-0001" "u1" stB 9).2.audits = stB.audits ++ [e] ∧
       e.action = "ticket.close") :=
  ⟨C1_audit_per_mutation.1 "u1" "hello" "world" [] stA 0 _ _ rfl,
   C1_audit_per_mutation.2.1 "ticket-0001" [("a1", 3), ("a2", 1)] stB 7 _ _ rfl,
   C1_audit_per_mutation.2.2 "ticket-0001" "u1" stB 9 _ _ rfl⟩

theorem get_open_tickets_check_rate_limit (rqid u : String) (st : Store) (now : Int) :
    ((check_rate_limit u st now).2).get_open_tickets_for_user rqid =
      st.get_open_tickets_for_user rqid := by
  unfold Store.get_open_tickets_for_user
  rw [check_rate_limit_tickets]

/-- C6: `open_ticket` fails only on rate limiting, an unknown requester, or a
policy denial, and every failure leaves the tickets map and the audit log
unchanged (validation precedes mutation). -/
theorem C6_open_ticket_error :
    ∀ rqid ti de tg st now e st',
      open_ticket rqid ti de tg st now = (.error e, st') →
      (e = .rateLimitError ∨
       e = .ticketError "requester not found" ∨
       (∃ user, dget st.users rqid = some user ∧
          (can_open_ticket user (st.get_open_tickets_for_user rqid).length).1 = false ∧
          e = .ticketError
            (can_open_ticket user (st.get_open_tickets_for_user rqid).length).2)) ∧
      st'.tickets = st.tickets ∧ st'.audits = st.audits := by
  intro rqid ti de tg st now e st' h
  unfold open_ticket at h
  dsimp only at h
  cases hrl : (check_rate_limit rqid st now).1 with
  | false =>
      rw [hrl] at h
      simp only [Bool.not_false, if_true, Prod.mk.injEq, Except.error.injEq] at h
      obtain ⟨he, hst⟩ := h
      subst hst
      exact ⟨Or.inl he.symm, by simp, by simp⟩
  | true =>
      rw [hrl] at h
      simp only [Bool.not_true, Bool.false_eq_true, if_false] at h
      cases hu : dget (check_rate_limit rqid st now).2.users rqid with
      | none =>
          rw [hu] at h
          dsimp only at h
          simp only [Prod.mk.injEq, Except.error.injEq] at h
          obtain ⟨he, hst⟩ := h
          subst hst
          exact ⟨Or.inr (Or.inl he.symm), by simp, by simp⟩
      | some user =>
          rw [hu] at h
          dsimp only at h
          cases hpol : (can_open_ticket user
              ((check_rate_limit rqid st now).2.get_open_tickets_for_user rqid).length).1 with
          | false =>
              rw [hpol] at h
              simp only [Bool.not_false, if_true, Prod.mk.injEq, Except.error.injEq] at h
              obtain ⟨he, hst⟩ := h
              subst hst
              rw [check_rate_limit_users] at hu
              rw [get_open_tickets_check_rate_limit] at hpol he
              exact ⟨Or.inr (Or.inr ⟨user, hu, hpol, he.symm⟩), by simp, by simp⟩
          | true =>
              rw [hpol] at h
              simp at h

/-- C6 witness: opening for an unknown requester fails with
"requester not found" and mutates neither tickets nor audits. -/
theorem C6_witness :
    ((ServiceErr.ticketError "requester not found") = .rateLimitError ∨
     (ServiceErr.ticketError "requester not found") = .ticketError "requester not found" ∨
     (∃ user, dget stA.users "ghost" = some user ∧
        (can_open_ticket user (stA.get_open_tickets_for_user "ghost").length).1 = false ∧
        (ServiceErr.ticketError "requester not found") = .ticketError
          (can_open_ticket user (stA.get_open_tickets_for_user "ghost").length).2)) ∧
    (open_ticket "ghost" "x" "y" [] stA 0).2.tickets = stA.tickets ∧
    (open_ticket "ghost" "x" "y" [] stA 0).2.audits = stA.audits :=
  C6_open_ticket_error "ghost" "x" "y" [] stA 0 (.ticketError "requester not found") _ rfl

/-- C2 counterexample: `assign_ticket_flow` on the already-closed ticket
`"ticket-0001"` of `stClosed` does set its assignee (from `none` to
`some "a1"`), so a closed ticket is not protected from assignment. -/
theorem C2_counterexample :
    tClosed.status = "closed" ∧ tClosed.assigned_to = none ∧
    dget (assign_ticket_flow "ticket-0001" [("a1", 1)] stClosed 5).2.tickets "ticket-0001" =
      some { tClosed with assigned_to := some "a1" } ∧
    ({ tClosed with assigned_to := some "a1" } : Ticket).assigned_to = some "a1" := by
  exact ⟨rfl, rfl, by decide, rfl⟩

/-- C2 (amended): closed status is terminal — neither `close_ticket` nor
`assign_ticket_flow` ever moves a ticket's status away from `"closed"`
(re-close keeps it closed, assignment does not touch status) — but
`assign_ticket_flow` does still set the assignee of a closed ticket. -/
theorem C2_closed_status_terminal :
    ∀ st tid t, dget st.tickets tid = some t → t.status = "closed" →
      (∀ tid2 actor now t2,
         dget (close_ticket tid2 actor st now).2.tickets tid = some t2 →
         t2.status = "closed") ∧
      (∀ tid2 ags now t2,
         dget (assign_ticket_flow tid2 ags st now).2.tickets tid = some t2 →
         t2.status = "closed") ∧
      (∀ a rest now, ∃ t2,
         dget (assign_ticket_flow tid (a :: rest) st now).2.tickets tid = some t2 ∧
         t2.status = "closed" ∧ t2.assigned_to.isSome = true) := by
  intro st tid t ht hclosed
  refine ⟨?_, ?_, ?_⟩
  · intro tid2 actor now t2 h2
    unfold close_ticket at h2
    cases hkt : dget st.tickets tid2 with
    | none =>
        rw [hkt] at h2
        dsimp only at h2
        rw [ht] at h2
        injection h2 with h3
        rw [← h3]
        exact hclosed
    | some ticket =>
        rw [hkt] at h2
        dsimp only at h2
        simp only [add_audit_tickets] at h2
        by_cases heq : tid = tid2
        · subst heq
          rw [dget_dset_self] at h2
          injection h2 with h3
          rw [← h3]
        · rw [dget_dset_ne _ _ _ _ heq] at h2
          rw [ht] at h2
          injection h2 with h3
          rw [← h3]
          exact hclosed
  · intro tid2 ags now t2 h2
    unfold assign_ticket_flow at h2
    cases hkt : dget st.tickets tid2 with
    | none =>
        rw [hkt] at h2
        dsimp only at h2
        rw [ht] at h2
        injection h2 with h3
        rw [← h3]
        exact hclosed
    | some ticket =>
        rw [hkt] at h2
        dsimp only at h2
        cases has : assign_ticket ticket ags with
        | none =>
            rw [has] at h2
            dsimp only at h2
            rw [ht] at h2
            injection h2 with h3
            rw [← h3]
            exact hclosed
        | some pr =>
            rw [has] at h2
            dsimp only at h2
            simp only [add_audit_tickets] at h2
            by_cases heq : tid = tid2
            · subst heq
              rw [dget_dset_self] at h2
              injection h2 with h3
              rw [← h3]
              rw [ht] at hkt
              injection hkt with h4
              rw [(assign_ticket_some_facts ticket ags pr has).1, ← h4]
              exact hclosed
            · rw [dget_dset_ne _ _ _ _ heq] at h2
              rw [ht] at h2
              injection h2 with h3
              rw [← h3]
              exact hclosed
  · intro a rest now
    unfold assign_ticket_flow
    rw [ht]
    dsimp only [assign_ticket]
    simp only [add_audit_tickets]
    refine ⟨{ t with assigned_to := some ((rest.foldl (fun b x => if x.2 < b.2 then x else b) a).1) }, ?_, hclosed, rfl⟩
    exact dget_dset_self _ _ _

/-- C2 (amended) witness: on `stClosed`, re-closing keeps the closed ticket
closed, and assigning it leaves it closed while setting an assignee. -/
theorem C2_amended_witness :
    tClosed.status = "closed" ∧
    (∃ t2, dget (assign_ticket_flow "ticket-0001" [("a1", 1)] stClosed 5).2.tickets
        "ticket-0001" = some t2 ∧ t2.status = "closed" ∧ t2.assigned_to.isSome = true) :=
  ⟨(C2_closed_status_terminal stClosed "ticket-0001" tClosed rfl rfl).1
     "ticket-0001" "u1" 3 tClosed (by decide),
   (C2_closed_status_terminal stClosed "ticket-0001" tClosed rfl rfl).2.2 ("a1", 1) [] 5⟩

/-- C10: one store uses a single counter for all prefixes — numeric ID
components strictly increase (hence are unique) across any sequence of
`next_id` calls regardless of prefix — and a successful `open_ticket`
consumes two counter values, one for the ticket ID and one for the audit ID. -/
theorem C10_shared_counter :
    (∀ (ps : List String) (st : Store) (i j : Nat) (a1 a2 : String),
       i < j → (run_next_ids st ps).1[i]? = some a1 →
       (run_next_ids st ps).1[j]? = some a2 →
       idNum a1 < idNum a2) ∧
    (∀ rqid ti de tg st now t st',
       open_ticket rqid ti de tg st now = (.ok t, st') →
       st'._id_counter = st._id_counter + 2 ∧
       t.id = "ticket" ++ "-" ++ pad4 (st._id_counter + 1) ∧
       idNum t.id = st._id_counter + 1 ∧
       (∃ e, st'.audits = st.audits ++ [e] ∧
          e.id = "audit" ++ "-" ++ pad4 (st._id_counter + 2) ∧
          idNum e.id = st._id_counter + 2)) := by
  constructor
  · intro ps st i j a1 a2 hij ha1 ha2
    rw [run_next_ids_getElem] at ha1 ha2
    cases hq1 : ps[i]? with
    | none => rw [hq1] at ha1; simp at ha1
    | some q1 =>
        cases hq2 : ps[j]? with
        | none => rw [hq2] at ha2; simp at ha2
        | some q2 =>
            rw [hq1] at ha1
            rw [hq2] at ha2
            simp only [Option.map_some'] at ha1 ha2
            have ha1' := Option.some.inj ha1
            have ha2' := Option.some.inj ha2
            rw [← ha1', ← ha2', idNum_render, idNum_render]
            omega
  · intro rqid ti de tg st now t st' h
    obtain ⟨hid, hcnt, haud⟩ := open_ticket_ok_facts rqid ti de tg st now t st' h
    refine ⟨hcnt, hid, ?_, ?_⟩
    · rw [hid, idNum_render]
    · exact ⟨_, haud, rfl, idNum_render "audit" (st._id_counter + 2)⟩

/-- C10 witness: consecutive calls under different prefixes give increasing
numeric components, and a second successful open on `stB` (counter already
at 2) advances the counter to 4 — ticket numeric IDs 1 and 3 are not
consecutive. -/
theorem C10_witness :
    idNum "ticket-0001" < idNum "audit-0002" ∧
    (open_ticket "u1" "again" "again" [] stB 1).2._id_counter = stB._id_counter + 2 ∧
    (∃ e, (open_ticket "u1" "again" "again" [] stB 1).2.audits = stB.audits ++ [e] ∧
       e.id = "audit" ++ "-" ++ pad4 (stB._id_counter + 2) ∧
       idNum e.id = stB._id_counter + 2) :=
  ⟨C10_shared_counter.1 ["ticket", "audit"] stA 0 1 "ticket-0001" "audit-0002"
     (by decide) (by decide) (by decide),
   (C10_shared_counter.2 "u1" "again" "again" [] stB 1 _ _ rfl).1,
   (C10_shared_counter.2 "u1" "again" "again" [] stB 1 _ _ rfl).2.2.2⟩

end Helpdesk
